import Mathlib

/-!
Shallow embedding of the server-side gRPC dispatch core of this repository
(`src/server.rs`) and of the interop test server (`interop/src/bin/interop_server.rs`),
together with theorems settling the specification claims.

Streams are modelled denotationally: a (finite, single-shot) futures-0.1 stream is a
list of items followed by an optional terminating error (`EStream`).  Futures are
collapsed except where the inline/pooled executor distinction needs an explicit
deferred layer (`RespFuture`).  Machine integers are `Int`/`Nat`.  A Rust panic is
modelled as the `.error` side of an `Except String` carrying the panic message.
-/

/-- HTTP header: (name, value) pair, as in `httpbis::Header`. -/
abbrev Header := String × String

/-- Ordered header list, as in `httpbis::Headers`. -/
abbrev Headers := List Header

/-- `Headers::get_opt`: first header with the given name, if any. -/
def headersGet (hs : Headers) (name : String) : Option String :=
  (hs.find? (fun p => p.1 == name)).map (fun p => p.2)

/-- Modelled from the spec (§4.2, error.rs is not under src/): the error payload of
`Error::GrpcMessage`, a gRPC status code (i32) with a message. -/
structure GrpcMessageError where
  grpc_status : Int
  grpc_message : String
deriving DecidableEq

/-- Modelled from the spec (§7 error taxonomy, error.rs is not under src/): the
design-level error kinds the dispatch core propagates. -/
inductive Error where
  | GrpcMessage (e : GrpcMessageError)
  | Protocol (msg : String)
  | Unimplemented (msg : String)
  | InvalidMetadata (msg : String)
  | Panic (msg : String)
deriving DecidableEq

/-- Double-quote a string, as Rust's derived `Debug` renders a `String` field
(escape sequences inside the message are not modelled). -/
def quoteDebug (s : String) : String := "\"" ++ s ++ "\""

/-- Modelled from the spec: the `format!("error: {:?}", e)` debug rendering used by the
bridge for errors other than `GrpcMessage` (the `Debug` derive lives in the missing
error.rs; field layout follows Rust's derived `Debug`). -/
def debugRender : Error → String
  | .GrpcMessage e =>
      "GrpcMessage(GrpcMessageError \x7b grpc_status: " ++ toString e.grpc_status ++
        ", grpc_message: " ++ quoteDebug e.grpc_message ++ " \x7d)"
  | .Protocol m => "Protocol(" ++ quoteDebug m ++ ")"
  | .Unimplemented m => "Unimplemented(" ++ quoteDebug m ++ ")"
  | .InvalidMetadata m => "InvalidMetadata(" ++ quoteDebug m ++ ")"
  | .Panic m => "Panic(" ++ quoteDebug m ++ ")"

/-- A finite single-shot stream: the items yielded, then an optional terminating
error.  Denotational model of the futures-0.1 streams used by `server.rs`. -/
structure EStream (α : Type) where
  items : List α
  err : Option Error
deriving DecidableEq

/-- Map a fallible function over the items of a stream prefix: items are produced
until the first failure, which becomes the terminating error (model of futures'
`Stream::and_then` over our stream denotation). -/
def mapExcept {α β : Type} (f : α → Except Error β) : List α → List β × Option Error
  | [] => ([], none)
  | x :: xs =>
    match f x with
    | .error e => ([], some e)
    | .ok y =>
      let r := mapExcept f xs
      (y :: r.1, r.2)

/-- `Stream::and_then` on our stream model: apply `f` to each item; a failure of `f`
short-circuits the stream with that error, otherwise the original terminator stays. -/
def EStream.and_then {α β : Type} (s : EStream α) (f : α → Except Error β) : EStream β :=
  let r := mapExcept f s.items
  match r.2 with
  | some e => ⟨r.1, some e⟩
  | none => ⟨r.1, s.err⟩

/-- Metadata values are UTF-8 text or raw bytes (spec §3: keys with the binary
suffix carry bytes). -/
inductive MetadataValue where
  | ascii (s : String)
  | bin (b : List Nat)
deriving DecidableEq

/-- Modelled from the spec (§3, metadata.rs is not under src/): ordered (name, value)
metadata entries. -/
abbrev Metadata := List (String × MetadataValue)

/-- `RequestOptions`: the per-call context handed to a handler (src/server.rs uses
`RequestOptions { metadata }`; req.rs itself is not under src/). -/
structure RequestOptions where
  metadata : Metadata

/-- A request stream of typed messages (`StreamingRequest<T>`, req.rs not under src/):
denotationally just the stream. -/
abbrev StreamingRequest (α : Type) := EStream α

/-- Modelled from the spec (§3/§4.6, resp.rs is not under src/): a streaming response
is initial metadata plus the item stream; per §7 handler errors surface inside the
stream and are turned into trailers by the bridge. -/
abbrev StreamingResponse (α : Type) := Metadata × EStream α

/-- `StreamingResponse::err`: a response whose stream immediately fails. -/
def StreamingResponse.err {α : Type} (e : Error) : StreamingResponse α :=
  ([], ⟨[], some e⟩)

/-- `StreamingResponse::and_then_items`: map a fallible function over the items. -/
def StreamingResponse.and_then_items {α β : Type} (r : StreamingResponse α)
    (f : α → Except Error β) : StreamingResponse β :=
  (r.1, r.2.and_then f)

/-- Modelled from the spec (§3, resp.rs is not under src/): `SingleResponse<T>`, at
most one item plus metadata, or a failure. -/
abbrev SingleResponse (α : Type) := Except Error (Metadata × α)

/-- `SingleResponse::completed`: a successful response with empty metadata. -/
def SingleResponse.completed {α : Type} (x : α) : SingleResponse α := .ok ([], x)

/-- `SingleResponse::into_stream`: lift to a one-item stream; a failed single
response becomes a stream terminated by that error. -/
def SingleResponse.into_stream {α : Type} : SingleResponse α → StreamingResponse α
  | .ok (md, x) => (md, ⟨[x], none⟩)
  | .error e => ([], ⟨[], some e⟩)

/-- Modelled from the spec (§4.3, the `stream_single` helper is not under src/):
collapse a stream to its single element; zero or more than one item is an
`Error.Protocol` with message "expected exactly one request message"; a stream
error observed before a successful collapse propagates. -/
def stream_single {α : Type} (s : EStream α) : Except Error α :=
  match s.items with
  | [] =>
    match s.err with
    | some e => .error e
    | none => .error (.Protocol "expected exactly one request message")
  | [x] =>
    match s.err with
    | some e => .error e
    | none => .ok x
  | _ => .error (.Protocol "expected exactly one request message")

/-- Per-method typed codec pair (`method.rs` marshaller interface, spec §3). -/
structure Marshaller (α : Type) where
  read : List Nat → Except Error α
  write : α → Except Error (List Nat)

/-- `MethodDescriptor`: method name plus the marshaller pair (streaming flavor is
carried by the chosen adapter). -/
structure MethodDescriptor (Req Resp : Type) where
  name : String
  req_marshaller : Marshaller Req
  resp_marshaller : Marshaller Resp

/-- `MethodHandlerUnary::handle` (src/server.rs:149-154): collapse the request stream
to a single message, invoke the unary closure, lift its single response to a stream. -/
def MethodHandlerUnary.handle {Req Resp : Type}
    (f : RequestOptions → Req → SingleResponse Resp)
    (m : RequestOptions) (req : StreamingRequest Req) : StreamingResponse Resp :=
  SingleResponse.into_stream ((stream_single req).bind (fun r => f m r))

/-- `MethodHandlerServerStreaming::handle` (src/server.rs:173-178): collapse the
request stream to a single message and invoke the server-streaming closure. -/
def MethodHandlerServerStreaming.handle {Req Resp : Type}
    (f : RequestOptions → Req → StreamingResponse Resp)
    (o : RequestOptions) (req : StreamingRequest Req) : StreamingResponse Resp :=
  match stream_single req with
  | .ok r => f o r
  | .error e => ([], ⟨[], some e⟩)

/-- `MethodHandlerBidi::handle` (src/server.rs:187-189): direct pass-through. -/
def MethodHandlerBidi.handle {Req Resp : Type}
    (f : RequestOptions → StreamingRequest Req → StreamingResponse Resp)
    (m : RequestOptions) (req : StreamingRequest Req) : StreamingResponse Resp :=
  f m req

/-- `httpbis::misc::any_to_string` applied to a caught panic payload; for the string
payloads produced by `panic!` it is the panic message itself (httpbis is external). -/
def any_to_string (s : String) : String := s

/-- `MethodHandlerDispatchImpl::start_request` (src/server.rs:208-227): decode request
frames through the request marshaller, invoke the handler inside `catch_unwind`
(a panicking handler is the `.error` case, carrying the panic message), encode the
response items through the response marshaller; a caught panic becomes
`StreamingResponse::err(Error::Panic(message))`. -/
def MethodHandlerDispatchImpl.start_request {Req Resp : Type}
    (desc : MethodDescriptor Req Resp)
    (method_handler : RequestOptions → StreamingRequest Req → Except String (StreamingResponse Resp))
    (o : RequestOptions) (req_grpc_frames : StreamingRequest (List Nat)) :
    StreamingResponse (List Nat) :=
  let req := req_grpc_frames.and_then (fun frame => desc.req_marshaller.read frame)
  match method_handler o req with
  | .ok resp => resp.and_then_items (fun r => desc.resp_marshaller.write r)
  | .error e => StreamingResponse.err (.Panic (any_to_string e))

/-- `ServerMethod` (src/server.rs:230-233): a method name paired with its
type-erased dispatcher (the erased type is the parameter `α`). -/
structure ServerMethod (α : Type) where
  name : String
  dispatch : α
deriving DecidableEq

/-- `ServerServiceDefinition` (src/server.rs:252-254). -/
structure ServerServiceDefinition (α : Type) where
  methods : List (ServerMethod α)
deriving DecidableEq

/-- `ServerServiceDefinition::join` (src/server.rs:264-270): concatenate the method
lists of the given definitions, in order. -/
def ServerServiceDefinition.join {α : Type} (defs : List (ServerServiceDefinition α)) :
    ServerServiceDefinition α :=
  ⟨defs.flatMap (fun s => s.methods)⟩

/-- `ServerServiceDefinition::find_method` (src/server.rs:272-277): first method with
the given name; `none` models the `expect` panic branch on a miss. -/
def ServerServiceDefinition.find_method {α : Type} (svc : ServerServiceDefinition α)
    (name : String) : Option (ServerMethod α) :=
  (svc.methods.filter (fun m => m.name == name)).head?

/-!  Interop test server (`interop/src/bin/interop_server.rs`). -/

/-- `DICTIONARY` (interop_server.rs:19), verbatim including the transposed "qp". -/
def DICTIONARY : String := "ABCDEFGHIJKLMNOPQRSTUVabcdefghijklmnoqprstuvwxyz0123456789"

/-- `DICTIONARY_SIZE` (interop_server.rs:21). -/
def DICTIONARY_SIZE : Nat := 58

/-- `make_string` (interop_server.rs:26-35): a byte vector of the requested size whose
byte `n` is `dict[n % DICTIONARY_SIZE]` (the index is always in bounds, so the total
`getD` coincides with Rust's panicking index). -/
def make_string (size : Nat) : List Nat :=
  let dict := DICTIONARY.toList.map Char.toNat
  (List.range size).map (fun n => dict.getD (n % DICTIONARY_SIZE) 0)

/-- Proto `EchoStatus` as used by `unary_call`: code (i32) and message. -/
structure ResponseStatus where
  code : Int
  message : String

/-- Proto `Payload`: the body bytes. -/
structure Payload where
  body : List Nat
deriving DecidableEq

/-- Proto `SimpleRequest` fields read by `unary_call`. -/
structure SimpleRequest where
  response_status : ResponseStatus
  response_size : Int

/-- Proto `SimpleResponse` fields written by `unary_call`. -/
structure SimpleResponse where
  payload : Payload
deriving DecidableEq

/-- Rust's `as usize` cast of an i32 on a 64-bit target: two's-complement
reinterpretation. -/
def usizeOfI32 (v : Int) : Nat := (v % (2 : Int) ^ 64).toNat

/-- `TestServerImpl::unary_call` (interop_server.rs:44-57): a nonzero requested status
becomes a `GrpcMessage` failure carrying that status and message; otherwise the
response payload is `make_string(response_size as usize)`. -/
def TestServerImpl.unary_call (_o : RequestOptions) (req : SimpleRequest) :
    SingleResponse SimpleResponse :=
  if req.response_status.code ≠ 0 then
    .error (.GrpcMessage ⟨req.response_status.code, req.response_status.message⟩)
  else
    SingleResponse.completed ⟨⟨make_string (usizeOfI32 req.response_size)⟩⟩

/-!  Frame codec and metadata mapper (grpc_frame.rs and metadata.rs are not under
src/; modelled from spec §4.1 and §4.2). -/

/-- Modelled from the spec (§4.1 encoder, `write_grpc_frame_to_vec` in the missing
grpc_frame.rs): `[0x00][u32-be length][payload]`. -/
def write_grpc_frame_to_vec (payload : List Nat) : List Nat :=
  0 :: (payload.length / 2 ^ 24 % 256) :: (payload.length / 2 ^ 16 % 256) ::
    (payload.length / 2 ^ 8 % 256) :: (payload.length % 256) :: payload

/-- Modelled from the spec (§4.1 decoder, `GrpcFrameFromHttpFramesStreamRequest` in
the missing grpc_frame.rs): repeatedly peel complete frames off the byte stream; a
nonzero compression flag is `Error.Protocol`, and end-of-input inside a partially
buffered frame is `Error.Protocol`. -/
def decode_frames : List Nat → EStream (List Nat)
  | [] => ⟨[], none⟩
  | flag :: rest =>
    if flag = 0 then
      match rest with
      | a :: b :: c :: d :: rest2 =>
        let len := ((a * 256 + b) * 256 + c) * 256 + d
        if len ≤ rest2.length then
          let s := decode_frames (rest2.drop len)
          ⟨rest2.take len :: s.items, s.err⟩
        else ⟨[], some (Error.Protocol "end of input inside a frame")⟩
      | _ => ⟨[], some (Error.Protocol "end of input inside a frame")⟩
    else ⟨[], some (Error.Protocol "compressed messages are not supported")⟩
termination_by bytes => bytes.length
decreasing_by
  simp [List.length_drop]
  omega

/-- Base64 value of one alphabet character; `none` for characters outside the
alphabet. -/
def b64val (c : Char) : Option Nat :=
  if 'A' ≤ c ∧ c ≤ 'Z' then some (c.toNat - 65)
  else if 'a' ≤ c ∧ c ≤ 'z' then some (c.toNat - 97 + 26)
  else if '0' ≤ c ∧ c ≤ '9' then some (c.toNat - 48 + 52)
  else if c = '+' then some 62
  else if c = '/' then some 63
  else none

/-- Reassemble 6-bit quanta into bytes; a single leftover quantum is an invalid
base64 length. -/
def decodeQuanta : List Nat → Option (List Nat)
  | [] => some []
  | [_] => none
  | [a, b] => some [a * 4 + b / 16]
  | [a, b, c] => some [a * 4 + b / 16, b % 16 * 16 + c / 4]
  | a :: b :: c :: d :: rest =>
    (decodeQuanta rest).map
      (fun t => (a * 4 + b / 16) :: (b % 16 * 16 + c / 4) :: (c % 4 * 64 + d) :: t)

/-- Modelled from the spec (§4.2): base64 decoding with optional trailing padding,
failing on any character outside the alphabet or an impossible length. -/
def b64decode (s : String) : Option (List Nat) :=
  let core := ((s.toList.reverse.dropWhile (fun c => c = '=')).reverse)
  (core.mapM b64val).bind decodeQuanta

/-- The base64 output alphabet. -/
def b64chars : List Char :=
  "ABCDEFGHIJKLMNOPQRSTUVWXYZabcdefghijklmnopqrstuvwxyz0123456789+/".toList

/-- Encode 8-bit bytes into base64 characters with padding. -/
def b64encodeList : List Nat → List Char
  | [] => []
  | [a] => [b64chars.getD (a / 4) 'A', b64chars.getD (a % 4 * 16) 'A', '=', '=']
  | [a, b] =>
    [b64chars.getD (a / 4) 'A', b64chars.getD (a % 4 * 16 + b / 16) 'A',
     b64chars.getD (b % 16 * 4) 'A', '=']
  | a :: b :: c :: rest =>
    b64chars.getD (a / 4) 'A' :: b64chars.getD (a % 4 * 16 + b / 16) 'A' ::
      b64chars.getD (b % 16 * 4 + c / 64) 'A' :: b64chars.getD (c % 64) 'A' ::
      b64encodeList rest

/-- Modelled from the spec (§4.2): base64 encoding of binary metadata values. -/
def b64encode (bs : List Nat) : String := String.mk (b64encodeList bs)

/-- Transport-control header names reserved on ingress and egress (spec §3). -/
def reservedNames : List String :=
  ["content-type", "grpc-status", "grpc-message", "grpc-encoding", "te", "user-agent"]

/-- A pseudo-header name: starts with ':'. -/
def isPseudoName (n : String) : Bool := n.toList.head? == some ':'

/-- A binary metadata key: name ends with the 4-character binary suffix. -/
def isBinName (n : String) : Bool := n.toList.reverse.take 4 == ['n', 'i', 'b', '-']

/-- Modelled from the spec (§4.2, metadata.rs is not under src/):
`Metadata::from_headers` drops pseudo-headers and reserved headers, decodes values of
binary-suffixed keys as base64 (failing on invalid base64), and preserves order. -/
def Metadata.from_headers : Headers → Except Unit Metadata
  | [] => .ok []
  | (n, v) :: rest =>
    if isPseudoName n then Metadata.from_headers rest
    else if n ∈ reservedNames then Metadata.from_headers rest
    else if isBinName n then
      match b64decode v with
      | some bytes => (Metadata.from_headers rest).map (fun m => (n, .bin bytes) :: m)
      | none => .error ()
    else (Metadata.from_headers rest).map (fun m => (n, .ascii v) :: m)

/-- Modelled from the spec (§4.2): `Metadata::into_headers` re-encodes binary values
as base64. -/
def Metadata.into_headers (m : Metadata) : Headers :=
  m.map (fun p =>
    match p.2 with
    | .ascii s => (p.1, s)
    | .bin b => (p.1, b64encode b))

/-!  Call executor and HTTP-to-gRPC bridge (src/server.rs:371-510). -/

/-- The type-erased dispatcher a `ServerMethod` owns once registered: byte-stream in,
byte-stream out (handler panics are already caught inside
`MethodHandlerDispatchImpl.start_request`). -/
abbrev Dispatch := RequestOptions → EStream (List Nat) → StreamingResponse (List Nat)

/-- `ServerServiceDefinition::handle_method` (src/server.rs:279-283): look the method
up and start it; the `.error` case is the `expect` panic of `find_method` on an
unknown name, carrying the panic message. -/
def ServerServiceDefinition.handle_method (svc : ServerServiceDefinition Dispatch)
    (name : String) (o : RequestOptions) (message : EStream (List Nat)) :
    Except String (StreamingResponse (List Nat)) :=
  match svc.find_method name with
  | some m => .ok (m.dispatch o message)
  | none => .error ("unknown method: " ++ name)

/-- A future of a response: already resolved (inline execution) or deferred to a
worker-pool task (modelled from the spec §4.5; `CpuPool::spawn_fn` and
`StreamingResponse::new` are outside src/). -/
inductive RespFuture (α : Type) where
  | now (r : α)
  | deferred (f : Unit → α)

/-- Await the response future. -/
def RespFuture.wait {α : Type} : RespFuture α → α
  | .now r => r
  | .deferred f => f ()

/-- The two call starters of src/server.rs:383 and 399. -/
inductive CallStarter where
  | sync
  | cpupool

/-- `CallStarterSync::start` (src/server.rs:385-396) runs `handle_method` on the
current task; `CallStarterCpupool::start` (src/server.rs:403-419) captures the call
and defers the same `handle_method` invocation to the pool, wrapping the result
future via `StreamingResponse::new`. -/
def CallStarter.start : CallStarter → ServerServiceDefinition Dispatch → String →
    RequestOptions → EStream (List Nat) →
    RespFuture (Except String (StreamingResponse (List Nat)))
  | .sync, svc, name, o, message => .now (svc.handle_method name o message)
  | .cpupool, svc, name, o, message => .deferred (fun _ => svc.handle_method name o message)

/-- One part of the HTTP response stream (`httpbis::HttpStreamPart`): an
intermediate DATA part or a final header block (trailers). -/
inductive HttpStreamPart where
  | intermediate_data (bytes : List Nat)
  | last_headers (h : Headers)
deriving DecidableEq

/-- An HTTP response: the initial headers plus the part stream (the `HttpResponse`
future collapsed). -/
abbrev HttpResponseModel := Headers × List HttpStreamPart

/-- `http_response_500` (src/server.rs:429-436): trailers-only `:status 500` with a
`grpc-message`, and no data. -/
def http_response_500 (message : String) : HttpResponseModel :=
  ([(":status", "500"), ("grpc-message", message)], [])

/-- The trailer block the bridge builds for a stream error (the match inside
src/server.rs:479-495): a `GrpcMessage` error carries its `grpc-status` and verbatim
`grpc-message`; any other error carries only the debug-rendered `grpc-message`. -/
def errorTrailers : Error → Headers
  | .GrpcMessage e =>
    [(":status", "500"), ("grpc-status", toString e.grpc_status),
     ("grpc-message", e.grpc_message)]
  | e => [(":status", "500"), ("grpc-message", "error: " ++ debugRender e)]

/-- `GrpcHttpService::start_request` (src/server.rs:439-509): read `:path` (absent →
trailers-only 500), deframe the request body, decode metadata (failure →
trailers-only 500), start the call via the chosen starter, then build the response:
initial 200 headers plus the handler metadata, the data parts (each payload framed),
the error trailer produced by `then` on a stream error, and the unconditionally
chained final `grpc-status 0` trailer.  The outer `.error` is the `find_method`
panic escaping the bridge (the source has `TODO: catch unwind`). -/
def GrpcHttpService.start_request (starter : CallStarter)
    (svc : ServerServiceDefinition Dispatch) (headers : Headers) (req : List Nat) :
    Except String HttpResponseModel :=
  match headersGet headers ":path" with
  | none => .ok (http_response_500 "no :path header")
  | some path =>
    let grpc_request := decode_frames req
    match Metadata.from_headers headers with
    | .error _ => .ok (http_response_500 "decode metadata error")
    | .ok metadata =>
      match (starter.start svc path ⟨metadata⟩ grpc_request).wait with
      | .error p => .error p
      | .ok (md, grpc_frames) =>
        let init_headers :=
          [(":status", "200"), ("content-type", "application/grpc")] ++ md.into_headers
        let s2 :=
          grpc_frames.items.map
            (fun frame => HttpStreamPart.intermediate_data (write_grpc_frame_to_vec frame))
          ++ match grpc_frames.err with
             | some e => [HttpStreamPart.last_headers (errorTrailers e)]
             | none => []
        let s3 := [HttpStreamPart.last_headers [("grpc-status", "0")]]
        .ok (init_headers, s2 ++ s3)

/-- The trailer (final header) blocks of a part stream, in order. -/
def trailerBlocks (parts : List HttpStreamPart) : List Headers :=
  parts.filterMap (fun p =>
    match p with
    | .last_headers h => some h
    | .intermediate_data _ => none)

/-- All values carried under a header name across the trailer blocks of a part
stream, in order. -/
def trailerValues (parts : List HttpStreamPart) (name : String) : List String :=
  (trailerBlocks parts).filterMap (fun h => headersGet h name)

/-- Hexadecimal digit characters. -/
def hexDigits : List Char := "0123456789ABCDEF".toList

/-- Modelled from the spec: percent-encoding of `grpc-message` per the gRPC
specification — the percent character and bytes outside the printable ASCII range
are written as %XX.  (The source emits the message verbatim; this definition follows
the spec's words for comparison.) -/
def specPercentEncode (s : String) : String :=
  String.mk (s.toList.flatMap (fun c =>
    if c = '%' ∨ c.toNat < 0x20 ∨ c.toNat > 0x7E then
      ['%', hexDigits.getD (c.toNat / 16 % 16) '0', hexDigits.getD (c.toNat % 16) '0']
    else [c]))

/-- The identity marshaller on raw byte payloads, used to instantiate concrete
services in the theorems below. -/
def idMarshaller : Marshaller (List Nat) := ⟨Except.ok, Except.ok⟩

/-- The part (zero or one trailer block) that `then` appends for the terminating
error of a response stream, if any (src/server.rs:471-498). -/
def errParts : Option Error → List HttpStreamPart
  | some e => [HttpStreamPart.last_headers (errorTrailers e)]
  | none => []

deriving instance DecidableEq for Except

/-!  Theorems. -/

/-- The bridge output for a registered method: initial 200 headers, the framed data
parts, the error trailer `then` produces on a stream error, and the unconditionally
chained final `grpc-status 0` trailer. -/
theorem bridge_parts_general (starter : CallStarter) (path : String) (d : Dispatch)
    (body : List Nat) (md : Metadata) (items : List (List Nat)) (err : Option Error)
    (hd : d ⟨[]⟩ (decode_frames body) = (md, ⟨items, err⟩)) :
    GrpcHttpService.start_request starter ⟨[⟨path, d⟩]⟩ [(":path", path)] body =
      .ok ([(":status", "200"), ("content-type", "application/grpc")] ++ md.into_headers,
        items.map (fun f => HttpStreamPart.intermediate_data (write_grpc_frame_to_vec f)) ++
        errParts err ++
        [HttpStreamPart.last_headers [("grpc-status", "0")]]) := by
  have hfind : (ServerServiceDefinition.find_method
      (⟨[⟨path, d⟩]⟩ : ServerServiceDefinition Dispatch) path) = some ⟨path, d⟩ := by
    simp [ServerServiceDefinition.find_method, List.filter]
  have hp : isPseudoName ":path" = true := by decide
  cases starter <;> cases err <;>
    simp [GrpcHttpService.start_request, headersGet, Metadata.from_headers, hp, hfind,
      ServerServiceDefinition.handle_method, CallStarter.start, RespFuture.wait, hd,
      errParts, List.append_assoc]

/-- `bridge_parts_general` specialized to a dispatcher given by its output. -/
theorem bridge_parts (starter : CallStarter) (path : String) (md : Metadata)
    (items : List (List Nat)) (err : Option Error) (body : List Nat) :
    GrpcHttpService.start_request starter ⟨[⟨path, fun _ _ => (md, ⟨items, err⟩)⟩]⟩
        [(":path", path)] body =
      .ok ([(":status", "200"), ("content-type", "application/grpc")] ++ md.into_headers,
        items.map (fun f => HttpStreamPart.intermediate_data (write_grpc_frame_to_vec f)) ++
        errParts err ++
        [HttpStreamPart.last_headers [("grpc-status", "0")]]) :=
  bridge_parts_general starter path _ body md items err rfl

/-- Data parts contribute no trailer blocks. -/
theorem trailerBlocks_data_map (items : List (List Nat)) (rest : List HttpStreamPart) :
    trailerBlocks (items.map
        (fun f => HttpStreamPart.intermediate_data (write_grpc_frame_to_vec f)) ++ rest) =
      trailerBlocks rest := by
  simp [trailerBlocks, List.filterMap_append, List.filterMap_map, Function.comp]

/-- C9: a UnaryCall request with response_status.code = 0 and response_size = 58
yields a response whose payload body is exactly the 58 bytes
`ABCDEFGHIJKLMNOPQRSTUVabcdefghijklmnoqprstuvwxyz0123456789`, the dictionary
preserved verbatim including the transposed "qp". -/
theorem unary_call_echo_58 (o : RequestOptions) (msg : String) :
    TestServerImpl.unary_call o ⟨⟨0, msg⟩, 58⟩ =
      .ok ([], ⟨⟨"ABCDEFGHIJKLMNOPQRSTUVabcdefghijklmnoqprstuvwxyz0123456789".toList.map
        Char.toNat⟩⟩) ∧
    ("ABCDEFGHIJKLMNOPQRSTUVabcdefghijklmnoqprstuvwxyz0123456789".toList.map
      Char.toNat).length = 58 := by
  refine ⟨?_, by decide⟩
  simp only [TestServerImpl.unary_call]
  norm_num
  rfl

/-- C10: `make_string n` has length exactly `n` and its byte at index `i` is byte
`i % 58` of the 58-byte dictionary; in particular `make_string 0` is empty, and sizes
beyond 58 cycle through the dictionary from its start. -/
theorem make_string_spec (n i : Nat) (h : i < n) :
    (make_string n).length = n ∧ make_string 0 = [] ∧
    (make_string n).getD i 0 = (DICTIONARY.toList.map Char.toNat).getD (i % 58) 0 := by
  refine ⟨by simp [make_string], by simp [make_string], ?_⟩
  have h1 : i < ((List.range n).map
      (fun k => (DICTIONARY.toList.map Char.toNat).getD (k % DICTIONARY_SIZE) 0)).length := by
    simpa using h
  simp only [make_string]
  rw [List.getD_eq_getElem _ _ h1]
  simp [DICTIONARY_SIZE]

/-- Witness for C10 at n = 3, i = 2. -/
theorem make_string_spec_witness :
    2 < 3 ∧ ((make_string 3).length = 3 ∧ make_string 0 = [] ∧
      (make_string 3).getD 2 0 = (DICTIONARY.toList.map Char.toNat).getD (2 % 58) 0) :=
  ⟨by decide, make_string_spec 3 2 (by decide)⟩

/-- C8 (amended): `join` concatenates the method lists in order without
deduplication; when several registered methods share a name, lookup returns the
FIRST-registered one (the source filters and takes `.next()`), not the last. -/
theorem join_concat_and_first_wins {α : Type} (s1 s2 : ServerServiceDefinition α)
    (defs : List (ServerServiceDefinition α))
    (ms1 ms2 : List (ServerMethod α)) (m : ServerMethod α) (name : String)
    (hfirst : ∀ m2 ∈ ms1, m2.name ≠ name) (hname : m.name = name) :
    (ServerServiceDefinition.join [s1, s2]).methods = s1.methods ++ s2.methods ∧
    (ServerServiceDefinition.join defs).methods.length =
      (defs.map (fun s => s.methods.length)).sum ∧
    ServerServiceDefinition.find_method ⟨ms1 ++ m :: ms2⟩ name = some m := by
  refine ⟨by simp [ServerServiceDefinition.join],
    by simp [ServerServiceDefinition.join, Function.comp_def], ?_⟩
  have h1 : ms1.filter (fun x => x.name == name) = [] := by
    simp only [List.filter_eq_nil_iff]
    intro a ha
    simpa using hfirst a ha
  subst hname
  simp [ServerServiceDefinition.find_method, List.filter_append, h1, List.filter]

/-- Witness for C8 at a concrete service with a shadowed duplicate name. -/
theorem join_concat_and_first_wins_witness :
    (∀ m2 ∈ [(⟨"/a", 0⟩ : ServerMethod Nat)], m2.name ≠ "/b") ∧
    (⟨"/b", (1 : Nat)⟩ : ServerMethod Nat).name = "/b" ∧
    ((ServerServiceDefinition.join [(⟨[⟨"/a", (0 : Nat)⟩]⟩ : ServerServiceDefinition Nat),
        ⟨[⟨"/b", 1⟩]⟩]).methods = [⟨"/a", 0⟩] ++ [⟨"/b", 1⟩] ∧
      (ServerServiceDefinition.join [(⟨[⟨"/a", (0 : Nat)⟩]⟩ : ServerServiceDefinition Nat),
        ⟨[⟨"/b", 1⟩]⟩]).methods.length =
        ([(⟨[⟨"/a", (0 : Nat)⟩]⟩ : ServerServiceDefinition Nat), ⟨[⟨"/b", 1⟩]⟩].map
          (fun s => s.methods.length)).sum ∧
      ServerServiceDefinition.find_method ⟨[⟨"/a", 0⟩] ++ ⟨"/b", 1⟩ :: [⟨"/b", 2⟩]⟩ "/b" =
        some ⟨"/b", 1⟩) :=
  ⟨by decide, rfl,
    join_concat_and_first_wins ⟨[⟨"/a", 0⟩]⟩ ⟨[⟨"/b", 1⟩]⟩
      [⟨[⟨"/a", 0⟩]⟩, ⟨[⟨"/b", 1⟩]⟩] [⟨"/a", 0⟩] [⟨"/b", 2⟩] ⟨"/b", 1⟩ "/b"
      (by decide) rfl⟩

/-- Counterexample for C8 as stated: with two methods registered under the same
name, lookup returns the first-registered one, not the last-registered one (and
`join` indeed keeps both copies). -/
theorem find_method_returns_first_not_last :
    ServerServiceDefinition.find_method
        (⟨[⟨"/s/m", (1 : Nat)⟩, ⟨"/s/m", 2⟩]⟩ : ServerServiceDefinition Nat) "/s/m" =
      some ⟨"/s/m", 1⟩ ∧
    (⟨"/s/m", (1 : Nat)⟩ : ServerMethod Nat) ≠ ⟨"/s/m", 2⟩ ∧
    (ServerServiceDefinition.join
        [(⟨[⟨"/s/m", (1 : Nat)⟩]⟩ : ServerServiceDefinition Nat), ⟨[⟨"/s/m", 2⟩]⟩]).methods =
      [⟨"/s/m", 1⟩, ⟨"/s/m", 2⟩] := by
  refine ⟨by decide, by decide, by decide⟩

/-- C1 (code behavior at the failing input): when the path matches no registered
method, `find_method`'s `expect` panics and — the bridge having no catch — the panic
escapes `GrpcHttpService::start_request`; no trailers-only grpc-status-12 response
(nor any response at all) is produced, contradicting the claim. -/
theorem find_method_miss_panics (starter : CallStarter)
    (svc : ServerServiceDefinition Dispatch) (path : String) (body : List Nat)
    (h : svc.find_method path = none) :
    GrpcHttpService.start_request starter svc [(":path", path)] body =
      .error ("unknown method: " ++ path) := by
  have hp : isPseudoName ":path" = true := by decide
  cases starter <;>
    simp [GrpcHttpService.start_request, headersGet, Metadata.from_headers, hp,
      ServerServiceDefinition.handle_method, h, CallStarter.start, RespFuture.wait]

/-- Witness for C1 at the spec's own failing input, `/no.such.Service/Method`. -/
theorem find_method_miss_panics_witness :
    (ServerServiceDefinition.find_method (⟨[]⟩ : ServerServiceDefinition Dispatch)
        "/no.such.Service/Method" = none) ∧
    GrpcHttpService.start_request .sync ⟨[]⟩ [(":path", "/no.such.Service/Method")] [] =
      .error ("unknown method: " ++ "/no.such.Service/Method") :=
  ⟨rfl, find_method_miss_panics .sync ⟨[]⟩ "/no.such.Service/Method" [] rfl⟩

/-- C6: a request without the `:path` pseudo-header gets a trailers-only
`:status 500` response with grpc-message "no :path header" and no data; a request
whose metadata fails to decode gets a trailers-only `:status 500` response with
grpc-message "decode metadata error"; both outputs are the same for every call
starter and every service definition, so the executor and the handler are never
invoked. -/
theorem early_500_responses (starter : CallStarter)
    (svc : ServerServiceDefinition Dispatch) (headers1 headers2 : Headers)
    (body1 body2 : List Nat) (p : String)
    (h1 : headersGet headers1 ":path" = none)
    (h2 : headersGet headers2 ":path" = some p)
    (h3 : Metadata.from_headers headers2 = .error ()) :
    GrpcHttpService.start_request starter svc headers1 body1 =
      .ok ([(":status", "500"), ("grpc-message", "no :path header")], []) ∧
    GrpcHttpService.start_request starter svc headers2 body2 =
      .ok ([(":status", "500"), ("grpc-message", "decode metadata error")], []) := by
  constructor <;>
    simp [GrpcHttpService.start_request, h1, h2, h3, http_response_500]

/-- Witness for C6: no `:path` header at all, and a binary-suffixed metadata key
whose value is not valid base64. -/
theorem early_500_responses_witness :
    (headersGet [("x", "y")] ":path" = none) ∧
    (headersGet [(":path", "/a/b"), ("k-bin", "!!!")] ":path" = some "/a/b") ∧
    (Metadata.from_headers [(":path", "/a/b"), ("k-bin", "!!!")] = .error ()) ∧
    (GrpcHttpService.start_request .sync ⟨[]⟩ [("x", "y")] [] =
      .ok ([(":status", "500"), ("grpc-message", "no :path header")], []) ∧
    GrpcHttpService.start_request .sync ⟨[]⟩ [(":path", "/a/b"), ("k-bin", "!!!")] [] =
      .ok ([(":status", "500"), ("grpc-message", "decode metadata error")], [])) :=
  ⟨by decide, by decide, by decide,
    early_500_responses .sync ⟨[]⟩ [("x", "y")] [(":path", "/a/b"), ("k-bin", "!!!")]
      [] [] "/a/b" (by decide) (by decide) (by decide)⟩

/-- C7: starting a call with the inline starter and with the pooled starter produces
the same resolved response for every service, method name, options and input stream,
and consequently the same wire output from the bridge for every request. -/
theorem call_starters_observably_equal (svc : ServerServiceDefinition Dispatch)
    (name : String) (o : RequestOptions) (message : EStream (List Nat))
    (headers : Headers) (body : List Nat) :
    (CallStarter.sync.start svc name o message).wait =
      (CallStarter.cpupool.start svc name o message).wait ∧
    GrpcHttpService.start_request .sync svc headers body =
      GrpcHttpService.start_request .cpupool svc headers body :=
  ⟨rfl, rfl⟩

/-- C2 (amended): for every successfully opened response stream, the final header
block of the part stream is always the chained `grpc-status 0` trailer; on clean
completion it is the only trailer block, but on a handler error the mapped error
trailer is followed by that additional `grpc-status 0` trailer, so the error trailer
is not the last block and a second `grpc-status` trailer follows it. -/
theorem trailer_blocks_shape (starter : CallStarter) (path : String) (md : Metadata)
    (items : List (List Nat)) (err : Option Error) (body : List Nat) :
    ∃ initH parts,
      GrpcHttpService.start_request starter ⟨[⟨path, fun _ _ => (md, ⟨items, err⟩)⟩]⟩
          [(":path", path)] body = .ok (initH, parts) ∧
      parts.getLast? = some (.last_headers [("grpc-status", "0")]) ∧
      trailerBlocks parts =
        (match err with
         | some e => [errorTrailers e]
         | none => []) ++ [[("grpc-status", "0")]] := by
  refine ⟨_, _, bridge_parts starter path md items err body, ?_, ?_⟩
  · simp
  · rw [List.append_assoc, trailerBlocks_data_map]
    cases err <;> simp [trailerBlocks, errParts]

/-- Counterexample for C2 as stated: a handler error `GrpcMessage{5, "nope"}`
produces a part stream with TWO trailer blocks carrying `grpc-status` — the mapped
`5` and then the chained `0` — and the last one is `0`, not the mapped status. -/
theorem trailer_exclusivity_fails_on_error :
    GrpcHttpService.start_request .sync
        ⟨[⟨"/t/m", fun _ _ => StreamingResponse.err (.GrpcMessage ⟨5, "nope"⟩)⟩]⟩
        [(":path", "/t/m")] [] =
      .ok ([(":status", "200"), ("content-type", "application/grpc")],
        [.last_headers [(":status", "500"), ("grpc-status", "5"), ("grpc-message", "nope")],
         .last_headers [("grpc-status", "0")]]) ∧
    trailerValues
        [.last_headers [(":status", "500"), ("grpc-status", "5"), ("grpc-message", "nope")],
         .last_headers [("grpc-status", "0")]] "grpc-status" = ["5", "0"] :=
  ⟨by decide, by decide⟩

/-- C3 (amended): a handler panic is caught at the `MethodHandlerDispatchImpl`
boundary and converted into `Error.Panic` with the captured panic text; the bridge
then answers with a trailer whose grpc-message contains the panic text — but that
trailer carries NO `grpc-status` header (in particular not 13), and the chained
final trailer carries `grpc-status 0`; the panic does not escape the bridge (the
response is `.ok`), so the server keeps serving. -/
theorem panic_caught_at_dispatch_boundary {Req Resp : Type}
    (desc : MethodDescriptor Req Resp) (o : RequestOptions)
    (frames : StreamingRequest (List Nat)) (P : String) (starter : CallStarter)
    (path : String) (body : List Nat) :
    MethodHandlerDispatchImpl.start_request desc (fun _ _ => .error P) o frames =
      StreamingResponse.err (.Panic P) ∧
    GrpcHttpService.start_request starter
        ⟨[⟨path, fun oo ff =>
            MethodHandlerDispatchImpl.start_request desc (fun _ _ => .error P) oo ff⟩]⟩
        [(":path", path)] body =
      .ok ([(":status", "200"), ("content-type", "application/grpc")],
        [.last_headers [(":status", "500"),
           ("grpc-message", "error: " ++ debugRender (.Panic P))],
         .last_headers [("grpc-status", "0")]]) ∧
    "error: " ++ debugRender (.Panic P) = "error: Panic(\"" ++ P ++ "\")" := by
  refine ⟨rfl, ?_, ?_⟩
  · exact bridge_parts starter path [] [] (some (.Panic P)) body
  · have h : ("error: Panic(\"" : String) = ("error: " ++ "Panic(") ++ "\"" := by decide
    have h2 : ("\")" : String) = "\"" ++ ")" := by decide
    rw [h, h2]
    simp only [debugRender, quoteDebug, String.append_assoc]

/-- Counterexample for C3 as stated: for a handler that panics with "boom", the
response's trailer carries the panic text in grpc-message but the only `grpc-status`
value on the stream is "0" — grpc-status 13 appears nowhere. -/
theorem panic_trailer_lacks_status_13 :
    GrpcHttpService.start_request .sync
        ⟨[⟨"/t/m", fun oo ff => MethodHandlerDispatchImpl.start_request
            ⟨"/t/m", idMarshaller, idMarshaller⟩ (fun _ _ => .error "boom") oo ff⟩]⟩
        [(":path", "/t/m")] [] =
      .ok ([(":status", "200"), ("content-type", "application/grpc")],
        [.last_headers [(":status", "500"), ("grpc-message", "error: Panic(\"boom\")")],
         .last_headers [("grpc-status", "0")]]) ∧
    trailerValues
        [.last_headers [(":status", "500"), ("grpc-message", "error: Panic(\"boom\")")],
         .last_headers [("grpc-status", "0")]] "grpc-status" = ["0"] ∧
    trailerValues
        [.last_headers [(":status", "500"), ("grpc-message", "error: Panic(\"boom\")")],
         .last_headers [("grpc-status", "0")]] "grpc-message" = ["error: Panic(\"boom\")"] :=
  ⟨by decide, by decide, by decide⟩

/-- C4 (amended): a handler error `GrpcMessage{status=s, message=m}` produces a
trailer carrying `grpc-status = s` and `grpc-message = m` VERBATIM (no
percent-encoding), together with `:status 500`; it is followed by one further
chained trailer carrying `grpc-status 0`. -/
theorem grpc_message_error_trailer (starter : CallStarter) (path : String)
    (md : Metadata) (items : List (List Nat)) (body : List Nat)
    (ge : GrpcMessageError) :
    GrpcHttpService.start_request starter
        ⟨[⟨path, fun _ _ => (md, ⟨items, some (.GrpcMessage ge)⟩)⟩]⟩
        [(":path", path)] body =
      .ok ([(":status", "200"), ("content-type", "application/grpc")] ++ md.into_headers,
        items.map (fun f => HttpStreamPart.intermediate_data (write_grpc_frame_to_vec f)) ++
        [.last_headers [(":status", "500"), ("grpc-status", toString ge.grpc_status),
           ("grpc-message", ge.grpc_message)],
         .last_headers [("grpc-status", "0")]]) := by
  have h := bridge_parts starter path md items (some (.GrpcMessage ge)) body
  simpa [errorTrailers, errParts, List.append_assoc] using h

/-- Counterexample for C4 as stated: for `GrpcMessage{5, "100%"}` the wire carries
grpc-message "100%" verbatim rather than the percent-encoded "100%25", and a second
`grpc-status` trailer (the chained "0") follows the mapped one, so the trailers do
not carry EXACTLY `grpc-status=s`/`grpc-message=percent-encoded m`. -/
theorem status_passthrough_not_exclusive :
    (GrpcHttpService.start_request .sync
        ⟨[⟨"/t/m", fun _ _ => StreamingResponse.err (.GrpcMessage ⟨5, "100%"⟩)⟩]⟩
        [(":path", "/t/m")] [] =
      .ok ([(":status", "200"), ("content-type", "application/grpc")],
        [.last_headers [(":status", "500"), ("grpc-status", "5"), ("grpc-message", "100%")],
         .last_headers [("grpc-status", "0")]])) ∧
    specPercentEncode "100%" = "100%25" ∧ "100%" ≠ "100%25" ∧
    trailerValues
        [.last_headers [(":status", "500"), ("grpc-status", "5"), ("grpc-message", "100%")],
         .last_headers [("grpc-status", "0")]] "grpc-status" = ["5", "0"] :=
  ⟨by decide, by decide, by decide, by decide⟩

/-- C5 (amended): the unary adapter collapses the request stream to exactly one
message; a stream with zero items or more than one item makes the call fail with
`Error.Protocol "expected exactly one request message"` — independently of the
handler, whose result is never emitted — and on the wire (here: a unary method
invoked with zero request frames) this surfaces as a trailer with `:status 500` and
a grpc-message describing the protocol error but NO `grpc-status` header (not 13),
followed by the chained `grpc-status 0` trailer. -/
theorem unary_arity_enforcement {Req Resp : Type}
    (g : RequestOptions → Req → SingleResponse Resp) (m : RequestOptions)
    (req : StreamingRequest Req)
    (f : RequestOptions → List Nat → SingleResponse (List Nat))
    (h1 : req.err = none) (h2 : req.items.length ≠ 1) :
    MethodHandlerUnary.handle g m req =
      StreamingResponse.err (.Protocol "expected exactly one request message") ∧
    ∀ (starter : CallStarter) (path : String),
      GrpcHttpService.start_request starter
          ⟨[⟨path, fun oo ff => MethodHandlerDispatchImpl.start_request
              ⟨path, idMarshaller, idMarshaller⟩
              (fun o2 r => .ok (MethodHandlerUnary.handle f o2 r)) oo ff⟩]⟩
          [(":path", path)] [] =
        .ok ([(":status", "200"), ("content-type", "application/grpc")],
          [.last_headers [(":status", "500"),
             ("grpc-message",
               "error: " ++ debugRender (.Protocol "expected exactly one request message"))],
           .last_headers [("grpc-status", "0")]]) := by
  constructor
  · obtain ⟨items, err⟩ := req
    simp only at h1 h2
    subst h1
    match items, h2 with
    | [], _ => rfl
    | [a], h2 => exact absurd rfl h2
    | a :: b :: t, _ => rfl
  · intro starter path
    have hdec : decode_frames ([] : List Nat) = ⟨[], none⟩ := by simp [decode_frames]
    refine bridge_parts_general starter path _ [] []
      [] (some (.Protocol "expected exactly one request message")) ?_
    rw [hdec]
    rfl

/-- Witness for C5 at the empty request stream (zero messages). -/
theorem unary_arity_enforcement_witness :
    (⟨[], none⟩ : StreamingRequest (List Nat)).err = none ∧
    (⟨[], none⟩ : StreamingRequest (List Nat)).items.length ≠ 1 ∧
    (MethodHandlerUnary.handle (fun _ b => SingleResponse.completed b) ⟨[]⟩
        (⟨[], none⟩ : StreamingRequest (List Nat)) =
      StreamingResponse.err (.Protocol "expected exactly one request message") ∧
    ∀ (starter : CallStarter) (path : String),
      GrpcHttpService.start_request starter
          ⟨[⟨path, fun oo ff => MethodHandlerDispatchImpl.start_request
              ⟨path, idMarshaller, idMarshaller⟩
              (fun o2 r => .ok (MethodHandlerUnary.handle
                (fun _ b => SingleResponse.completed b) o2 r)) oo ff⟩]⟩
          [(":path", path)] [] =
        .ok ([(":status", "200"), ("content-type", "application/grpc")],
          [.last_headers [(":status", "500"),
             ("grpc-message",
               "error: " ++ debugRender (.Protocol "expected exactly one request message"))],
           .last_headers [("grpc-status", "0")]])) :=
  ⟨rfl, by decide,
    unary_arity_enforcement (fun _ b => SingleResponse.completed b) ⟨[]⟩ ⟨[], none⟩
      (fun _ b => SingleResponse.completed b) rfl (by decide)⟩

/-- Counterexample for C5 as stated: a unary method invoked with zero request frames
yields a response whose only `grpc-status` value is "0" — no `grpc-status 13`
trailers-only response exists. -/
theorem unary_arity_trailer_lacks_status_13 :
    GrpcHttpService.start_request .sync
        ⟨[⟨"/t/m", fun oo ff => MethodHandlerDispatchImpl.start_request
            ⟨"/t/m", idMarshaller, idMarshaller⟩
            (fun o2 r => .ok (MethodHandlerUnary.handle
              (fun _ b => SingleResponse.completed b) o2 r)) oo ff⟩]⟩
        [(":path", "/t/m")] [] =
      .ok ([(":status", "200"), ("content-type", "application/grpc")],
        [.last_headers [(":status", "500"),
           ("grpc-message", "error: Protocol(\"expected exactly one request message\")")],
         .last_headers [("grpc-status", "0")]]) ∧
    trailerValues
        [.last_headers [(":status", "500"),
           ("grpc-message", "error: Protocol(\"expected exactly one request message\")")],
         .last_headers [("grpc-status", "0")]] "grpc-status" = ["0"] := by
  refine ⟨?_, by decide⟩
  have hdec : decode_frames ([] : List Nat) = ⟨[], none⟩ := by simp [decode_frames]
  have h := bridge_parts_general .sync "/t/m"
    (fun oo ff => MethodHandlerDispatchImpl.start_request
      ⟨"/t/m", idMarshaller, idMarshaller⟩
      (fun o2 r => .ok (MethodHandlerUnary.handle
        (fun _ b => SingleResponse.completed b) o2 r)) oo ff)
    [] [] [] (some (.Protocol "expected exactly one request message"))
    (by rw [hdec]; rfl)
  simpa [errParts, errorTrailers, debugRender, quoteDebug] using h
